import Mathlib

/-!
Shallow embedding of `src/lib/python/pqos/pqos.py` (the `Pqos` class of the
intel-cmt-cat Python binding) and proofs about it.

The file under verification is a ctypes binding: it loads `libpqos.so.5`,
keeps a singleton wrapper instance, builds a `CPqosConfig` record and calls
three native entry points (`pqos_init`, `pqos_fini`, `pqos_sysconfig_get`),
translating non-zero return codes into raised errors via
`pqos_handle_error`.

Python values are modelled as follows: strings as `String` (Python
`str.upper`/`str.lower` are ASCII-modelled by `pyUpper`/
`pyLower`, which agree with Python on ASCII input), `None`-or-object
arguments as `Option`, file objects as a record carrying the result of
`fileno()`, machine return codes as `Int`, and the native library as
explicit function arguments (stubs).  Each operation returns, next to its
`Except` result, the list of native calls it performed, so that claims
about "no native call is made" or "the call made before the error" are
statable.
-/

/-- Model of Python `str.upper()`: uppercases every character.  Python's
method is Unicode-aware; on the ASCII strings this binding compares
against, `Char.toUpper` agrees with it. -/
def pyUpper (s : String) : String := String.mk (s.data.map Char.toUpper)

/-- Model of Python `str.lower()`: lowercases every character (ASCII model,
matching Python on ASCII input). -/
def pyLower (s : String) : String := String.mk (s.data.map Char.toLower)

/-- Model of a Python file object: all the binding uses is `fileno()`. -/
structure PyFile where
  fileno : Int
deriving DecidableEq, Repr

/-- Modelled from the spec: the error taxonomy of §7.  `InvalidArgument`
(a Python `ValueError` raised locally, carrying a message) and
`NativeCallError` (raised by `pqos_handle_error` from `pqos/common.py`,
which is not under `src/`; per the spec it "carries the call name and the
raw numeric code").  `LoadError` is the failure of `LoadLibrary`. -/
inductive PqosError where
  | invalidArgument (message : String)
  | nativeCallError (callName : String) (code : Int)
  | loadError
deriving DecidableEq, Repr

/-- Modelled from the spec: `pqos_handle_error` lives in `pqos/common.py`,
which is not under `src/`.  Per the spec (§7) it translates "a non-success
status code" (non-zero) into a `NativeCallError` "carrying the call name
and the raw numeric code" and is a no-op on success. -/
def pqos_handle_error (callName : String) (ret : Int) : Except PqosError Unit :=
  if ret = 0 then Except.ok () else Except.error (PqosError.nativeCallError callName ret)

/-- Modelled from the spec: the interface selector enumerants
`CPqosConfig.PQOS_INTER_MSR` / `_OS` / `_OS_RESCTRL_MON` / `_AUTO` come from
`pqos/native_struct.py`, which is not under `src/`; the spec (§3) describes
them as an "enumerated variant: MSR | OS | OS_RESCTRL_MON | AUTO". -/
inductive CPqosInterface where
  | PQOS_INTER_MSR
  | PQOS_INTER_OS
  | PQOS_INTER_OS_RESCTRL_MON
  | PQOS_INTER_AUTO
deriving DecidableEq, Repr

/-- Modelled from the spec: `CPqosConfig.LOG_VER_SILENT` from
`pqos/native_struct.py` (not under `src/`); its value matches the
`Pqos.LOG_VER_SILENT = -1` constant defined in the source file itself. -/
def CPqosConfig.LOG_VER_SILENT : Int := -1

/-- Modelled from the spec: `CPqosConfig.LOG_VER_DEFAULT`, value matching
`Pqos.LOG_VER_DEFAULT = 0` from the source file. -/
def CPqosConfig.LOG_VER_DEFAULT : Int := 0

/-- Modelled from the spec: `CPqosConfig.LOG_VER_VERBOSE`, value matching
`Pqos.LOG_VER_VERBOSE = 1` from the source file. -/
def CPqosConfig.LOG_VER_VERBOSE : Int := 1

/-- Modelled from the spec: `CPqosConfig.LOG_VER_SUPER_VERBOSE`, value
matching `Pqos.LOG_VER_SUPER_VERBOSE = 2` from the source file. -/
def CPqosConfig.LOG_VER_SUPER_VERBOSE : Int := 2

/-- Model of a `CPqosConfig.LOG_CALLBACK` ctypes function-pointer value:
either a wrapped function (`CPqosConfig.LOG_CALLBACK(f)`) or the NULL
pointer (`CPqosConfig.LOG_CALLBACK(0)`).  `Ctx` is the type of the opaque
log context, `Msg` the type of log messages, `β` the callback result. -/
inductive LOG_CALLBACK (Ctx Msg β : Type) where
  | mk (f : Ctx → Nat → Msg → β)
  | null

/-- Whether a `LOG_CALLBACK` value is a populated (non-NULL) pointer. -/
def LOG_CALLBACK.isSet {Ctx Msg β : Type} : LOG_CALLBACK Ctx Msg β → Bool
  | LOG_CALLBACK.mk _ => true
  | LOG_CALLBACK.null => false

/-- Model of the `CPqosConfig` record built by `Pqos.init` (pqos.py lines
151-154).  Field `interface` is the selector, `fd_log` the optional log
file descriptor (`None` modelled as `none`), `callback_log` the function
pointer, `verbose` the numeric verbosity level, `context_log` the opaque
context, `reserved` the reserved field. -/
structure CPqosConfig (Ctx Msg β : Type) where
  interface : CPqosInterface
  fd_log : Option Int
  callback_log : LOG_CALLBACK Ctx Msg β
  verbose : Int
  context_log : Option Ctx
  reserved : Int

/-- Embedding of pqos.py lines 106-116: the interface-name dispatch at the
top of `Pqos.init`.  Python `interface.upper()` is modelled by
`pyUpper`; the `else` branch raises
`ValueError(f"Unknown interface selected: {interface}."
" Available options: MSR, OS, OS_RESCTRL_MON, AUTO")`. -/
def interfaceSelect (interface : String) : Except PqosError CPqosInterface :=
  if pyUpper interface = "MSR" then
    Except.ok CPqosInterface.PQOS_INTER_MSR
  else if pyUpper interface = "OS" then
    Except.ok CPqosInterface.PQOS_INTER_OS
  else if pyUpper interface = "OS_RESCTRL_MON" then
    Except.ok CPqosInterface.PQOS_INTER_OS_RESCTRL_MON
  else if pyUpper interface = "AUTO" then
    Except.ok CPqosInterface.PQOS_INTER_AUTO
  else
    Except.error (PqosError.invalidArgument
      s!"Unknown interface selected: {interface}. Available options: MSR, OS, OS_RESCTRL_MON, AUTO")

/-- Embedding of pqos.py lines 139-149: the verbosity dispatch of
`Pqos.init`.  Python `verbose` is `None` or a string (`Option String`),
compared through `.lower()` (modelled by `pyLower`).  Note that the source's `else` branch
interpolates the `interface` variable, not `verbose`, into the error
message (line 148); the embedding reproduces that. -/
def verboseSelect (interface : String) (verbose : Option String) : Except PqosError Int :=
  match verbose with
  | none => Except.ok CPqosConfig.LOG_VER_DEFAULT
  | some v =>
    if pyLower v = "default" then
      Except.ok CPqosConfig.LOG_VER_DEFAULT
    else if pyLower v = "silent" then
      Except.ok CPqosConfig.LOG_VER_SILENT
    else if pyLower v = "verbose" then
      Except.ok CPqosConfig.LOG_VER_VERBOSE
    else if pyLower v = "super" then
      Except.ok CPqosConfig.LOG_VER_SUPER_VERBOSE
    else
      Except.error (PqosError.invalidArgument
        s!"Unknown verbosity level selected: {interface}. Available options: silent, default (or None), verbose, super")

/-- Embedding of the nested function `pqos_log_callback_wrapper` of
pqos.py lines 123-132: wraps a Python callback into a function of the
native callback signature `(context, _size, message)` that calls the
original callback with `(message, context)`. -/
def pqos_log_callback_wrapper {Ctx Msg β : Type} (callback : Msg → Ctx → β) :
    Ctx → Nat → Msg → β :=
  fun context _size message => callback message context

/-- Embedding of `Pqos.init` (pqos.py lines 90-157).  `stdout` models the
`sys.stdout` global (only its `fileno()` is used); `pqos_init_fn` models
the native `self.lib.pqos_init` entry point as a stub mapping the config
passed by reference to a return code.  The second component of the result
is the list of native calls performed, as pairs of the invoked native
symbol's name and the argument passed; the first component is the raised
error or normal return. -/
def Pqos.init {Ctx Msg β : Type} (stdout : PyFile)
    (pqos_init_fn : CPqosConfig Ctx Msg β → Int)
    (interface : String) (log_file : Option PyFile)
    (log_callback : Option (Msg → Ctx → β))
    (log_context : Option Ctx) (verbose : Option String) :
    Except PqosError Unit × List (String × CPqosConfig Ctx Msg β) :=
  match interfaceSelect interface with
  | Except.error e => (Except.error e, [])
  | Except.ok cfg_interface =>
    -- lines 118-119: `if not log_file and not log_callback: log_file = sys.stdout`
    let log_file' := if log_file.isNone && log_callback.isNone then some stdout else log_file
    -- line 121: `cfg_fd_log = log_file.fileno() if log_file else None`
    let cfg_fd_log : Option Int := log_file'.map PyFile.fileno
    -- lines 122-137: wrap the callback, or build a NULL function pointer
    let cfg_callback_log : LOG_CALLBACK Ctx Msg β :=
      match log_callback with
      | some callback => LOG_CALLBACK.mk (pqos_log_callback_wrapper callback)
      | none => LOG_CALLBACK.null
    match verboseSelect interface verbose with
    | Except.error e => (Except.error e, [])
    | Except.ok cfg_verbose =>
      -- lines 151-154: build the configuration record
      let config : CPqosConfig Ctx Msg β :=
        { interface := cfg_interface, fd_log := cfg_fd_log,
          callback_log := cfg_callback_log, verbose := cfg_verbose,
          context_log := log_context, reserved := 0 }
      -- lines 156-157: call the native initializer and translate its code
      let ret := pqos_init_fn config
      (pqos_handle_error "pqos_init" ret, [("pqos_init", config)])

/-- Embedding of `Pqos.fini` (pqos.py lines 159-163).  `pqos_fini_ret`
models the return code of the native `self.lib.pqos_fini` entry point; the
second component is the list of native symbols invoked. -/
def Pqos.fini (pqos_fini_ret : Int) : Except PqosError Unit × List String :=
  (pqos_handle_error "pqos_fini" pqos_fini_ret, ["pqos_fini"])

/-- Embedding of `Pqos.get_sysconfig` (pqos.py lines 165-173).  The
`CPqosSysconfig` structure comes from `pqos/native_struct.py` (not under
`src/`); per the spec it is an opaque native-owned record, modelled as the
type parameter `Sysconfig`.  `native` models the behaviour of the native
`self.lib.pqos_sysconfig_get` entry point: the return code and what
`sysconfig_ptr.contents` holds after the call.  Note the source invokes
the symbol `pqos_sysconfig_get` (line 171) but passes the string
`pqos_get_sysconfig` to `pqos_handle_error` (line 172); the embedding
reproduces both strings.  The second component is the list of native
symbols invoked. -/
def Pqos.get_sysconfig {Sysconfig : Type} (native : Int × Sysconfig) :
    Except PqosError Sysconfig × List String :=
  let ret := native.1
  (match pqos_handle_error "pqos_get_sysconfig" ret with
   | Except.error e => Except.error e
   | Except.ok _ => Except.ok native.2,
   ["pqos_sysconfig_get"])

/-- Class-level state of the `Pqos` singleton machinery (pqos.py lines
57-88): `_instance` holds the identity of the one stored instance (object
identities are modelled as `Nat`); `nextId` allocates fresh identities for
`object.__new__`; `loadCount` counts invocations of
`ctypes.cdll.LoadLibrary` (line 88); `lib` is the identity of the CDLL
object currently held in the instance's `lib` attribute (each
`LoadLibrary` call produces a fresh CDLL object). -/
structure PqosClassState where
  _instance : Option Nat
  nextId : Nat
  loadCount : Nat
  lib : Option Nat
deriving DecidableEq, Repr

/-- The class state before any `Pqos()` construction: `_instance = None`
(pqos.py line 57), no library loaded. -/
def PqosClassState.start : PqosClassState :=
  { _instance := none, nextId := 0, loadCount := 0, lib := none }

/-- Embedding of `Pqos.__new__` (pqos.py lines 71-83): returns the stored
instance if one exists, otherwise allocates a fresh object, stores it via
`set_instance`, and returns `get_instance()`. -/
def Pqos.new (s : PqosClassState) : Nat × PqosClassState :=
  match s._instance with
  | some i => (i, s)
  | none =>
    let i := s.nextId
    (i, { s with _instance := some i, nextId := s.nextId + 1 })

/-- Embedding of `ctypes.cdll.LoadLibrary("libpqos.so.5")` as used by
`Pqos.__init__` (pqos.py line 88): every call resolves the shared object
again and yields a fresh CDLL wrapper object, modelled by bumping
`loadCount` and returning the new object's identity. -/
def Pqos.loadLibrary (s : PqosClassState) : Nat × PqosClassState :=
  (s.loadCount, { s with loadCount := s.loadCount + 1 })

/-- Embedding of the Python construction call `Pqos()` — the "acquire"
operation of the spec: `type.__call__` runs `__new__` (lines 71-83) and
then, the returned object being an instance of the class, always runs
`__init__` (lines 85-88), which reassigns `self.lib` to a freshly loaded
CDLL object. -/
def Pqos.construct (s : PqosClassState) : Nat × PqosClassState :=
  let (inst, s1) := Pqos.new s
  let (cdll, s2) := Pqos.loadLibrary s1
  (inst, { s2 with lib := some cdll })

/-- One step of the process-level usage of the binding: an "acquire"
(`Pqos()` construction), or a call to the `init` / `fini` methods, which
only reach into the native library (pqos.py lines 156, 162) and never
touch the class-level `_instance` slot or reassign `self.lib`. -/
inductive ProcOp where
  | acquireOp
  | initOp
  | finiOp
deriving DecidableEq, Repr

/-- Process-wide state: the `Pqos` class state plus the sequence of native
calls made so far by `init` / `fini`. -/
structure ProcState where
  cls : PqosClassState
  nativeCalls : List String
deriving DecidableEq, Repr

/-- Runs one process-level operation, returning the new state and, for an
acquire, the identity of the returned instance.  `initOp` and `finiOp`
perform their native call; per the source they do not modify the class
state. -/
def runOp (s : ProcState) : ProcOp → ProcState × Option Nat
  | ProcOp.acquireOp =>
    let r := Pqos.construct s.cls
    ({ s with cls := r.2 }, some r.1)
  | ProcOp.initOp => ({ s with nativeCalls := s.nativeCalls ++ ["pqos_init"] }, none)
  | ProcOp.finiOp => ({ s with nativeCalls := s.nativeCalls ++ ["pqos_fini"] }, none)

/-- Runs a sequence of process-level operations. -/
def runOps (s : ProcState) (ops : List ProcOp) : ProcState :=
  ops.foldl (fun t op => (runOp t op).1) s

/-- Follows the spec's words (the verbosity table of C8 / §8), for
comparison with the source's `verboseSelect`: silent maps to SILENT,
default or `None` to DEFAULT, verbose to VERBOSE, super to SUPER_VERBOSE,
all case-insensitively; any other string is rejected (`none`). -/
def specVerboseLevel : Option String → Option Int
  | none => some CPqosConfig.LOG_VER_DEFAULT
  | some s =>
    if pyLower s = "silent" then some CPqosConfig.LOG_VER_SILENT
    else if pyLower s = "default" then some CPqosConfig.LOG_VER_DEFAULT
    else if pyLower s = "verbose" then some CPqosConfig.LOG_VER_VERBOSE
    else if pyLower s = "super" then some CPqosConfig.LOG_VER_SUPER_VERBOSE
    else none

/-- C5: for any interface string outside {MSR, OS, OS_RESCTRL_MON, AUTO}
(compared case-insensitively, via `upper()`), `init` raises the
`ValueError` ("InvalidArgument") built from the interface name and makes
no native call: the native initializer is never invoked (the trace of
native calls is empty), so native state is unchanged. -/
theorem init_unknown_interface_raises_before_native_call
    {Ctx Msg β : Type} (stdout : PyFile)
    (pqos_init_fn : CPqosConfig Ctx Msg β → Int)
    (interface : String) (log_file : Option PyFile)
    (log_callback : Option (Msg → Ctx → β)) (log_context : Option Ctx)
    (verbose : Option String)
    (h1 : pyUpper interface ≠ "MSR") (h2 : pyUpper interface ≠ "OS")
    (h3 : pyUpper interface ≠ "OS_RESCTRL_MON") (h4 : pyUpper interface ≠ "AUTO") :
    Pqos.init stdout pqos_init_fn interface log_file log_callback log_context verbose
      = (Except.error (PqosError.invalidArgument
          s!"Unknown interface selected: {interface}. Available options: MSR, OS, OS_RESCTRL_MON, AUTO"),
         []) := by
  simp only [Pqos.init, interfaceSelect, if_neg h1, if_neg h2, if_neg h3, if_neg h4]

/-- Witness for C5 at the concrete interface string "msrx". -/
theorem init_unknown_interface_raises_before_native_call_witness :
    pyUpper "msrx" ≠ "MSR" ∧
    @Pqos.init Int String Unit ⟨1⟩ (fun _ => 0) "msrx" none none none (some "default")
      = (Except.error (PqosError.invalidArgument
          "Unknown interface selected: msrx. Available options: MSR, OS, OS_RESCTRL_MON, AUTO"),
         []) :=
  ⟨by decide,
   init_unknown_interface_raises_before_native_call ⟨1⟩ (fun _ => 0) "msrx" none none none
     (some "default") (by decide) (by decide) (by decide) (by decide)⟩

/-- C7: when neither `log_file` nor `log_callback` is supplied (and the
other arguments are valid, so that the configuration record is built),
the record's `fd_log` field equals `sys.stdout.fileno()`. -/
theorem init_defaults_fd_to_stdout
    {Ctx Msg β : Type} (stdout : PyFile)
    (pqos_init_fn : CPqosConfig Ctx Msg β → Int)
    (interface : String) (log_context : Option Ctx) (verbose : Option String)
    (ci : CPqosInterface) (vv : Int)
    (hi : interfaceSelect interface = Except.ok ci)
    (hv : verboseSelect interface verbose = Except.ok vv) :
    (Pqos.init stdout pqos_init_fn interface none none log_context verbose).2.map
        (fun p => p.2.fd_log) = [some stdout.fileno] := by
  simp only [Pqos.init, hi, hv, Option.isNone_none, Bool.and_self, if_pos,
    List.map_cons, List.map_nil]
  rfl

/-- Witness for C7 with interface "OS" and verbosity "silent". -/
theorem init_defaults_fd_to_stdout_witness :
    interfaceSelect "OS" = Except.ok CPqosInterface.PQOS_INTER_OS ∧
    verboseSelect "OS" (some "silent") = Except.ok CPqosConfig.LOG_VER_SILENT ∧
    (@Pqos.init Int String Unit ⟨7⟩ (fun _ => 0) "OS" none none none (some "silent")).2.map
        (fun p => p.2.fd_log) = [some 7] :=
  ⟨rfl, rfl,
   init_defaults_fd_to_stdout ⟨7⟩ (fun _ => 0) "OS" none (some "silent")
     CPqosInterface.PQOS_INTER_OS CPqosConfig.LOG_VER_SILENT rfl rfl⟩

/-- C10: when the interface argument is valid but the verbosity string is
unrecognized, the raised `ValueError` message embeds the interface
argument (pqos.py line 148 interpolates `interface`, not `verbose`): the
resulting error is determined by `interface` alone, with the offending
verbosity value nowhere in it. -/
theorem init_bad_verbose_message_embeds_interface
    {Ctx Msg β : Type} (stdout : PyFile)
    (pqos_init_fn : CPqosConfig Ctx Msg β → Int)
    (interface : String) (log_file : Option PyFile)
    (log_callback : Option (Msg → Ctx → β)) (log_context : Option Ctx)
    (ci : CPqosInterface) (hi : interfaceSelect interface = Except.ok ci)
    (s : String)
    (h1 : pyLower s ≠ "default") (h2 : pyLower s ≠ "silent")
    (h3 : pyLower s ≠ "verbose") (h4 : pyLower s ≠ "super") :
    Pqos.init stdout pqos_init_fn interface log_file log_callback log_context (some s)
      = (Except.error (PqosError.invalidArgument
          s!"Unknown verbosity level selected: {interface}. Available options: silent, default (or None), verbose, super"),
         []) := by
  simp only [Pqos.init, hi, verboseSelect, if_neg h1, if_neg h2, if_neg h3, if_neg h4]

/-- Witness for C10 with interface "OS" and verbosity "loud": the message
quotes "OS", not "loud". -/
theorem init_bad_verbose_message_embeds_interface_witness :
    interfaceSelect "OS" = Except.ok CPqosInterface.PQOS_INTER_OS ∧
    pyLower "loud" ≠ "default" ∧
    @Pqos.init Int String Unit ⟨1⟩ (fun _ => 0) "OS" none none none (some "loud")
      = (Except.error (PqosError.invalidArgument
          "Unknown verbosity level selected: OS. Available options: silent, default (or None), verbose, super"),
         []) :=
  ⟨rfl, by decide,
   init_bad_verbose_message_embeds_interface ⟨1⟩ (fun _ => 0) "OS" none none none
     CPqosInterface.PQOS_INTER_OS rfl "loud" (by decide) (by decide) (by decide) (by decide)⟩

/-- C4: for valid arguments, when the native initializer returns a
non-zero code `c`, `init` raises the error carrying call name "pqos_init"
and code `c`, and the configuration record passed to the (single) native
call was fully constructed beforehand: every field holds the value
computed from the caller's arguments. -/
theorem init_native_failure_raises_with_full_config
    {Ctx Msg β : Type} (stdout : PyFile)
    (pqos_init_fn : CPqosConfig Ctx Msg β → Int)
    (interface : String) (log_file : Option PyFile)
    (log_callback : Option (Msg → Ctx → β)) (log_context : Option Ctx)
    (verbose : Option String) (ci : CPqosInterface) (vv : Int) (c : Int)
    (hi : interfaceSelect interface = Except.ok ci)
    (hv : verboseSelect interface verbose = Except.ok vv)
    (hfn : ∀ cfg, pqos_init_fn cfg = c) (hc : c ≠ 0) :
    (Pqos.init stdout pqos_init_fn interface log_file log_callback log_context verbose).1
      = Except.error (PqosError.nativeCallError "pqos_init" c) ∧
    (Pqos.init stdout pqos_init_fn interface log_file log_callback log_context verbose).2.map
      Prod.fst = ["pqos_init"] ∧
    ∀ p ∈ (Pqos.init stdout pqos_init_fn interface log_file log_callback log_context verbose).2,
      p.2.interface = ci ∧
      p.2.fd_log = (if log_file.isNone && log_callback.isNone then some stdout
                    else log_file).map PyFile.fileno ∧
      p.2.callback_log.isSet = log_callback.isSome ∧
      p.2.verbose = vv ∧ p.2.context_log = log_context ∧ p.2.reserved = 0 := by
  refine ⟨?_, ?_, ?_⟩
  · simp only [Pqos.init, hi, hv, hfn, pqos_handle_error, if_neg hc]
  · simp only [Pqos.init, hi, hv, List.map_cons, List.map_nil]
  · intro p hp
    simp only [Pqos.init, hi, hv, List.mem_singleton] at hp
    subst hp
    refine ⟨rfl, rfl, ?_, rfl, rfl, rfl⟩
    cases log_callback <;> rfl

/-- Witness for C4: a stub native initializer returning 1 for interface
"MSR", no log file and no callback. -/
theorem init_native_failure_raises_with_full_config_witness :
    interfaceSelect "MSR" = Except.ok CPqosInterface.PQOS_INTER_MSR ∧
    (∀ cfg : CPqosConfig Int String Unit, (fun _ => (1 : Int)) cfg = 1) ∧
    (1 : Int) ≠ 0 ∧
    (@Pqos.init Int String Unit ⟨1⟩ (fun _ => 1) "MSR" none none none (some "default")).1
      = Except.error (PqosError.nativeCallError "pqos_init" 1) :=
  ⟨rfl, fun _ => rfl, by decide,
   (init_native_failure_raises_with_full_config ⟨1⟩ (fun _ => 1) "MSR" none none none
     (some "default") CPqosInterface.PQOS_INTER_MSR CPqosConfig.LOG_VER_DEFAULT 1
     rfl rfl (fun _ => rfl) (by decide)).1⟩

/-- C8: for a valid interface, `init` maps the verbosity argument exactly
as the table prescribes (`specVerboseLevel`): a recognized string in any
letter case, or `None`, yields a configuration record whose `verbose`
field holds the matching enumerated level; any other string makes `init`
raise the InvalidArgument error with no native call. -/
theorem init_verbose_level_mapping
    {Ctx Msg β : Type} (stdout : PyFile)
    (pqos_init_fn : CPqosConfig Ctx Msg β → Int)
    (interface : String) (log_file : Option PyFile)
    (log_callback : Option (Msg → Ctx → β)) (log_context : Option Ctx)
    (ci : CPqosInterface) (hi : interfaceSelect interface = Except.ok ci)
    (verbose : Option String) :
    match specVerboseLevel verbose with
    | some v =>
      (Pqos.init stdout pqos_init_fn interface log_file log_callback log_context verbose).2.map
        (fun p => p.2.verbose) = [v]
    | none =>
      Pqos.init stdout pqos_init_fn interface log_file log_callback log_context verbose
        = (Except.error (PqosError.invalidArgument
            s!"Unknown verbosity level selected: {interface}. Available options: silent, default (or None), verbose, super"),
           []) := by
  cases verbose with
  | none => simp only [specVerboseLevel, Pqos.init, hi, verboseSelect, List.map_cons, List.map_nil]
  | some s =>
    by_cases hsil : pyLower s = "silent"
    · have hdef : pyLower s ≠ "default" := by rw [hsil]; decide
      simp only [specVerboseLevel, Pqos.init, hi, verboseSelect, if_pos hsil, if_neg hdef,
        List.map_cons, List.map_nil]
    · by_cases hdef : pyLower s = "default"
      · simp only [specVerboseLevel, Pqos.init, hi, verboseSelect, if_pos hdef, if_neg hsil,
          List.map_cons, List.map_nil]
      · by_cases hver : pyLower s = "verbose"
        · simp only [specVerboseLevel, Pqos.init, hi, verboseSelect, if_pos hver, if_neg hsil,
            if_neg hdef, List.map_cons, List.map_nil]
        · by_cases hsup : pyLower s = "super"
          · simp only [specVerboseLevel, Pqos.init, hi, verboseSelect, if_pos hsup, if_neg hsil,
              if_neg hdef, if_neg hver, List.map_cons, List.map_nil]
          · simp only [specVerboseLevel, Pqos.init, hi, verboseSelect, if_neg hsil, if_neg hdef,
              if_neg hver, if_neg hsup]

/-- Witness for C8 at interface "MSR" and verbosity "SUPER" (upper case):
the built record's verbosity field is the SUPER_VERBOSE level 2. -/
theorem init_verbose_level_mapping_witness :
    interfaceSelect "MSR" = Except.ok CPqosInterface.PQOS_INTER_MSR ∧
    (@Pqos.init Int String Unit ⟨1⟩ (fun _ => 0) "MSR" none none none (some "SUPER")).2.map
      (fun p => p.2.verbose) = [2] :=
  ⟨rfl,
   init_verbose_level_mapping ⟨1⟩ (fun _ => 0) "MSR" none none none
     CPqosInterface.PQOS_INTER_MSR rfl (some "SUPER")⟩

/-- C6: the trampoline built by `pqos_log_callback_wrapper` when a
`log_callback` is supplied, invoked with native arguments
`(context = C, size = N, message = M)`, makes exactly one call to the
original callback, with arguments `(M, C)`: for every callback its result
is `callback M C`, and a call-recording callback records the single call
`(M, C)`. -/
theorem log_callback_trampoline_single_call
    (Ctx Msg : Type) (C : Ctx) (N : Nat) (M : Msg) :
    (∀ (β : Type) (callback : Msg → Ctx → β),
        pqos_log_callback_wrapper callback C N M = callback M C) ∧
    pqos_log_callback_wrapper (fun m c => ([(m, c)] : List (Msg × Ctx))) C N M = [(M, C)] :=
  ⟨fun _ _ => rfl, rfl⟩

/-- Counterexample to C2 as stated: when the caller supplies BOTH a log
file and a log callback, the record built by `init` has the
file-descriptor field AND the callback field populated at once (here
`fd_log = some 5` and a non-NULL callback pointer). -/
theorem init_both_log_file_and_callback_populated :
    (@Pqos.init Int String Unit ⟨1⟩ (fun _ => 0) "MSR" (some ⟨5⟩)
        (some (fun _ _ => ())) none (some "default")).2.map
      (fun p => (p.2.fd_log, p.2.callback_log.isSet)) = [(some 5, true)] := rfl

/-- C2 amended: whenever the caller does NOT supply both `log_file` and
`log_callback` at once, every configuration record built by `init` has at
most one of the file-descriptor field and the callback field populated;
and when neither is supplied, the file-descriptor field equals the
process's standard-output descriptor.  (When both are supplied, both
fields are populated — see the counterexample.) -/
theorem init_log_destination_exclusive_unless_both_given
    {Ctx Msg β : Type} (stdout : PyFile)
    (pqos_init_fn : CPqosConfig Ctx Msg β → Int)
    (interface : String) (log_file : Option PyFile)
    (log_callback : Option (Msg → Ctx → β)) (log_context : Option Ctx)
    (verbose : Option String)
    (hnotboth : log_file.isNone ∨ log_callback.isNone) :
    ((Pqos.init stdout pqos_init_fn interface log_file log_callback log_context verbose).2.all
      (fun p => !(p.2.fd_log.isSome && p.2.callback_log.isSet))) = true ∧
    (log_file = none → log_callback = none →
      (Pqos.init stdout pqos_init_fn interface log_file log_callback log_context verbose).2.all
        (fun p => p.2.fd_log == some stdout.fileno) = true) := by
  rcases h : interfaceSelect interface with e | ci
  · constructor
    · simp [Pqos.init, h]
    · intro hf hc
      simp [Pqos.init, h]
  · rcases h2 : verboseSelect interface verbose with e | vv
    · constructor
      · simp [Pqos.init, h, h2]
      · intro hf hc
        simp [Pqos.init, h, h2]
    · constructor
      · rcases hnotboth with hn | hn
        · rw [Option.isNone_iff_eq_none] at hn
          subst hn
          cases log_callback <;> simp [Pqos.init, h, h2, LOG_CALLBACK.isSet]
        · rw [Option.isNone_iff_eq_none] at hn
          subst hn
          cases log_file <;> simp [Pqos.init, h, h2, LOG_CALLBACK.isSet]
      · intro hf hc
        subst hf
        subst hc
        simp [Pqos.init, h, h2]

/-- Witness for C2 (amended) with neither log destination supplied. -/
theorem init_log_destination_exclusive_unless_both_given_witness :
    ((@Pqos.init Int String Unit ⟨3⟩ (fun _ => 0) "MSR" none none none (some "default")).2.all
      (fun p => !(p.2.fd_log.isSome && p.2.callback_log.isSet))) = true ∧
    ((none : Option PyFile) = none → (none : Option (String → Int → Unit)) = none →
      (@Pqos.init Int String Unit ⟨3⟩ (fun _ => 0) "MSR" none none none (some "default")).2.all
        (fun p => p.2.fd_log == some (3 : Int)) = true) :=
  init_log_destination_exclusive_unless_both_given ⟨3⟩ (fun _ => 0) "MSR" none none none
    (some "default") (Or.inl rfl)

/-- Counterexample to C1 as stated: in `get_sysconfig`, with the native
accessor returning code 1, the raised error carries the string
"pqos_get_sysconfig" (pqos.py line 172), while the native entry point
actually invoked is `pqos_sysconfig_get` (line 171) — so the error does
not carry the name of the originating native call. -/
theorem get_sysconfig_error_name_mismatch :
    @Pqos.get_sysconfig Unit (1, ())
      = (Except.error (PqosError.nativeCallError "pqos_get_sysconfig" 1),
         ["pqos_sysconfig_get"]) ∧
    "pqos_get_sysconfig" ≠ "pqos_sysconfig_get" :=
  ⟨rfl, by decide⟩

/-- C1 amended: on a non-zero native return code every operation raises an
error carrying the raw numeric code together with a call-name label; for
`init` and `fini` that label ("pqos_init" / "pqos_fini") equals the name
of the native entry point invoked, while for `get_sysconfig` the label is
the fixed string "pqos_get_sysconfig" although the entry point invoked is
`pqos_sysconfig_get`. -/
theorem native_error_carries_label_and_code
    {Ctx Msg β Sysconfig : Type} (stdout : PyFile)
    (pqos_init_fn : CPqosConfig Ctx Msg β → Int)
    (interface : String) (log_file : Option PyFile)
    (log_callback : Option (Msg → Ctx → β)) (log_context : Option Ctx)
    (verbose : Option String) (ci : CPqosInterface) (vv : Int)
    (ret : Int) (sc : Sysconfig)
    (hi : interfaceSelect interface = Except.ok ci)
    (hv : verboseSelect interface verbose = Except.ok vv)
    (hfn : ∀ cfg, pqos_init_fn cfg = ret) (hr : ret ≠ 0) :
    ((Pqos.init stdout pqos_init_fn interface log_file log_callback log_context verbose).1
        = Except.error (PqosError.nativeCallError "pqos_init" ret) ∧
     (Pqos.init stdout pqos_init_fn interface log_file log_callback log_context verbose).2.map
        Prod.fst = ["pqos_init"]) ∧
    Pqos.fini ret
      = (Except.error (PqosError.nativeCallError "pqos_fini" ret), ["pqos_fini"]) ∧
    Pqos.get_sysconfig (ret, sc)
      = (Except.error (PqosError.nativeCallError "pqos_get_sysconfig" ret),
         ["pqos_sysconfig_get"]) := by
  refine ⟨⟨?_, ?_⟩, ?_, ?_⟩
  · simp only [Pqos.init, hi, hv, hfn, pqos_handle_error, if_neg hr]
  · simp only [Pqos.init, hi, hv, List.map_cons, List.map_nil]
  · simp only [Pqos.fini, pqos_handle_error, if_neg hr]
  · simp only [Pqos.get_sysconfig, pqos_handle_error, if_neg hr]

/-- Witness for C1 (amended) at return code 2. -/
theorem native_error_carries_label_and_code_witness :
    interfaceSelect "AUTO" = Except.ok CPqosInterface.PQOS_INTER_AUTO ∧
    (2 : Int) ≠ 0 ∧
    (((@Pqos.init Int String Unit ⟨1⟩ (fun _ => 2) "AUTO" none none none none).1
        = Except.error (PqosError.nativeCallError "pqos_init" 2) ∧
      (@Pqos.init Int String Unit ⟨1⟩ (fun _ => 2) "AUTO" none none none none).2.map
        Prod.fst = ["pqos_init"]) ∧
     Pqos.fini 2
       = (Except.error (PqosError.nativeCallError "pqos_fini" 2), ["pqos_fini"]) ∧
     @Pqos.get_sysconfig Unit (2, ())
       = (Except.error (PqosError.nativeCallError "pqos_get_sysconfig" 2),
          ["pqos_sysconfig_get"])) :=
  ⟨rfl, by decide,
   native_error_carries_label_and_code ⟨1⟩ (fun _ => 2) "AUTO" none none none none
     CPqosInterface.PQOS_INTER_AUTO CPqosConfig.LOG_VER_DEFAULT 2 ()
     rfl rfl (fun _ => rfl) (by decide)⟩

/-- Counterexample to C3 as stated: two `Pqos()` constructions from the
fresh class state return the same instance, but the second construction
loads the shared object again (`loadCount` becomes 2, not 1) and
reassigns the held `lib` reference to a different CDLL object. -/
theorem construct_reloads_library_on_second_acquire :
    (Pqos.construct (Pqos.construct PqosClassState.start).2).1
      = (Pqos.construct PqosClassState.start).1 ∧
    (Pqos.construct PqosClassState.start).2.loadCount = 1 ∧
    (Pqos.construct (Pqos.construct PqosClassState.start).2).2.loadCount = 2 ∧
    (Pqos.construct (Pqos.construct PqosClassState.start).2).2.lib
      ≠ (Pqos.construct PqosClassState.start).2.lib := by
  refine ⟨rfl, rfl, rfl, ?_⟩
  decide

/-- C3 amended: every `Pqos()` construction returns the singleton instance
(the second construction returns the same instance as the first), but the
shared object is re-resolved and re-loaded on every construction, not only
the first: each call runs `__init__`, increments the load count by one and
reassigns the held library reference to the freshly produced CDLL object. -/
theorem construct_singleton_but_reloads_each_time (s : PqosClassState) :
    (Pqos.construct (Pqos.construct s).2).1 = (Pqos.construct s).1 ∧
    (Pqos.construct s).2.loadCount = s.loadCount + 1 ∧
    (Pqos.construct s).2.lib = some s.loadCount := by
  cases h : s._instance with
  | none =>
    refine ⟨?_, ?_, ?_⟩ <;>
      simp [Pqos.construct, Pqos.new, Pqos.loadLibrary, h]
  | some i =>
    refine ⟨?_, ?_, ?_⟩ <;>
      simp [Pqos.construct, Pqos.new, Pqos.loadLibrary, h]

/-- After any construction, the class slot holds the returned instance. -/
theorem Pqos.construct_instance_eq (s : PqosClassState) :
    (Pqos.construct s).2._instance = some (Pqos.construct s).1 := by
  cases h : s._instance <;> simp [Pqos.construct, Pqos.new, Pqos.loadLibrary, h]

/-- Constructing while an instance is stored returns that instance. -/
theorem Pqos.construct_fst_of_instance (s : PqosClassState) (i : Nat)
    (h : s._instance = some i) : (Pqos.construct s).1 = i := by
  simp [Pqos.construct, Pqos.new, Pqos.loadLibrary, h]

/-- No process-level operation ever replaces a stored instance. -/
theorem runOp_preserves_instance (t : ProcState) (op : ProcOp) (i : Nat)
    (h : t.cls._instance = some i) : (runOp t op).1.cls._instance = some i := by
  cases op with
  | acquireOp => simp [runOp, Pqos.construct, Pqos.new, Pqos.loadLibrary, h]
  | initOp => simpa [runOp] using h
  | finiOp => simpa [runOp] using h

/-- No sequence of process-level operations replaces a stored instance. -/
theorem runOps_preserves_instance (mid : List ProcOp) (t : ProcState) (i : Nat)
    (h : t.cls._instance = some i) : (runOps t mid).cls._instance = some i := by
  induction mid generalizing t with
  | nil => simpa [runOps] using h
  | cons op rest ih =>
    have hstep := runOp_preserves_instance t op i h
    simpa [runOps, List.foldl_cons] using ih _ hstep

/-- C9: two acquires (`Pqos()` constructions) return the identical
instance, whatever sequence of operations — in particular calls to `init`
and `fini` — happens between them (singleton identity). -/
theorem acquire_identity_across_init_fini (s0 : ProcState) (mid : List ProcOp) :
    (runOp (runOps (runOp s0 ProcOp.acquireOp).1 mid) ProcOp.acquireOp).2
      = (runOp s0 ProcOp.acquireOp).2 := by
  have h1 : (runOp s0 ProcOp.acquireOp).1.cls._instance
      = some (Pqos.construct s0.cls).1 := by
    simpa [runOp] using Pqos.construct_instance_eq s0.cls
  have h2 := runOps_preserves_instance mid _ _ h1
  have h3 := Pqos.construct_fst_of_instance _ _ h2
  simp only [runOp] at h3
  simp [runOp, h3]
